import Mathlib

/-!
Verification of the WooCommerce Telegram bot (`bot.py`).

The definitions below are a shallow embedding of `bot.py`: remote HTTP
calls are modelled by explicit oracle parameters (`Option`-valued fetch
results, `Except`-valued put results), the Python dictionaries holding
the persisted settings (`context.bot_data`) and the per-conversation
awaiting flags (`context.user_data`) become structures, and the handlers
become pure functions from state and event to an `Effects` record (new
state, messages sent, store calls issued, settings saves).
-/

/-- Python value of a product record's `stock_quantity` entry: the key
can be absent from the dict, present with JSON `null` (Python `None`),
or hold an integer.  `p.get('stock_quantity')` yields `None` in the
first two cases; `p.get('stock_quantity', default)` yields the default
only in the `missing` case. -/
inductive StockField
  | missing
  | null
  | val (n : Int)
  deriving DecidableEq, Repr

/-- Product record with the fields `bot.py` reads for the low-stock
monitor and the paginated product list (`id`, `name`, `price`,
`stock_quantity`).  The `type`-dependent variation listing inside
`format_products` only adds text and buttons for variable products and
is not modelled; it does not affect pagination or the monitor. -/
structure Product where
  id : Nat
  name : String := ""
  price : String := ""
  stock_quantity : StockField := .missing
  deriving DecidableEq, Repr

/-- Order record with the fields `format_orders` reads. -/
structure Order where
  id : Nat
  billing_first_name : String := ""
  billing_last_name : String := ""
  total : String := "0"
  status : String := "pending"
  deriving DecidableEq, Repr

/-- Customer record (only the id is relevant to the embedded logic). -/
structure Customer where
  id : Nat
  deriving DecidableEq, Repr

/-- Result of a paginated formatter: the empty-collection message, the
"no more" sentinel for a page past the end, or a page with its rendered
entries and the "Page i of k" footer. -/
inductive FormatResult (α : Type)
  | empty (msg : String)
  | noMore (msg : String)
  | page (entries : List α) (footer : String)
  deriving DecidableEq, Repr

/-- Embedding of `format_products` (bot.py lines 349-409), restricted to
the entry subset and the footer.  Mirrors: the `if not products` guard,
`start_idx = page * per_page`, `total_pages = (len + per_page - 1) //
per_page`, the `start_idx >= len(products)` sentinel check, and the
slice `products[start_idx:end_idx]` with `per_page = 5`. -/
def format_products (products : List Product) (page : Nat) : FormatResult Product :=
  if products.isEmpty then .empty "No products found."
  else
    let per_page := 5
    let start_idx := page * per_page
    let total_pages := (products.length + per_page - 1) / per_page
    if products.length ≤ start_idx then .noMore "No more products to show."
    else
      .page ((products.drop start_idx).take per_page)
        ("Page " ++ toString (page + 1) ++ " of " ++ toString total_pages)

/-- Embedding of `format_orders` (bot.py lines 478-508): identical
pagination logic over order records. -/
def format_orders (orders : List Order) (page : Nat) : FormatResult Order :=
  if orders.isEmpty then .empty "No recent orders found."
  else
    let per_page := 5
    let start_idx := page * per_page
    let total_pages := (orders.length + per_page - 1) / per_page
    if orders.length ≤ start_idx then .noMore "No more orders to show."
    else
      .page ((orders.drop start_idx).take per_page)
        ("Page " ++ toString (page + 1) ++ " of " ++ toString total_pages)

/-- C2: for every non-empty record list of length `n` and page index `p`
with `p < ceil(n/5)`, the paginated formatters return exactly
`min 5 (n - 5p)` entries and a footer "Page p+1 of ceil(n/5)"; for every
index at or past `ceil(n/5)` they return the "no more" sentinel instead
of wrapping.  Stated for both `format_products` and `format_orders`. -/
theorem pagination_page_count_and_footer
    (prods : List Product) (ords : List Order) (p q r s : Nat)
    (hps : prods ≠ []) (hos : ords ≠ [])
    (hp : p < (prods.length + 4) / 5) (hq : q < (ords.length + 4) / 5)
    (hr : (prods.length + 4) / 5 ≤ r) (hs : (ords.length + 4) / 5 ≤ s) :
    (∃ es : List Product,
        format_products prods p =
          .page es ("Page " ++ toString (p + 1) ++ " of " ++
            toString ((prods.length + 4) / 5)) ∧
        es.length = min 5 (prods.length - 5 * p)) ∧
    format_products prods r = .noMore "No more products to show." ∧
    (∃ es : List Order,
        format_orders ords q =
          .page es ("Page " ++ toString (q + 1) ++ " of " ++
            toString ((ords.length + 4) / 5)) ∧
        es.length = min 5 (ords.length - 5 * q)) ∧
    format_orders ords s = .noMore "No more orders to show." := by
  have hpe : prods.isEmpty = false := by
    simp [List.isEmpty_iff, hps]
  have hoe : ords.isEmpty = false := by
    simp [List.isEmpty_iff, hos]
  have hplt : p * 5 < prods.length := by omega
  have hqlt : q * 5 < ords.length := by omega
  have hrge : prods.length ≤ r * 5 := by omega
  have hsge : ords.length ≤ s * 5 := by omega
  refine ⟨⟨(prods.drop (p * 5)).take 5, ?_, ?_⟩, ?_,
    ⟨(ords.drop (q * 5)).take 5, ?_, ?_⟩, ?_⟩
  · simp only [format_products, hpe, Bool.false_eq_true, if_false]
    rw [if_neg (by omega)]
    have h45 : prods.length + 5 - 1 = prods.length + 4 := by omega
    rw [h45]
  · rw [List.length_take, List.length_drop]
    omega
  · simp only [format_products, hpe, Bool.false_eq_true, if_false]
    rw [if_pos hrge]
  · simp only [format_orders, hoe, Bool.false_eq_true, if_false]
    rw [if_neg (by omega)]
    have h45 : ords.length + 5 - 1 = ords.length + 4 := by omega
    rw [h45]
  · rw [List.length_take, List.length_drop]
    omega
  · simp only [format_orders, hoe, Bool.false_eq_true, if_false]
    rw [if_pos hsge]

/-- Demo product list with seven entries, for concrete evaluation. -/
def demoProducts : List Product :=
  [⟨1, "P1", "10", .val 3⟩, ⟨2, "P2", "10", .val 10⟩, ⟨3, "P3", "10", .val 7⟩,
   ⟨4, "P4", "10", .val 2⟩, ⟨5, "P5", "10", .null⟩, ⟨6, "P6", "10", .val 1⟩,
   ⟨7, "P7", "10", .missing⟩]

/-- Demo order list with three entries, for concrete evaluation. -/
def demoOrders : List Order :=
  [⟨11, "A", "B", "5", "pending"⟩, ⟨12, "C", "D", "6", "completed"⟩,
   ⟨13, "E", "F", "7", "processing"⟩]

/-- Witness for C2 at a concrete input: seven products, page 1 has
exactly two entries with footer "Page 2 of 2", page 2 is the sentinel;
three orders, page 0 has all three entries, page 1 is the sentinel. -/
theorem pagination_page_count_and_footer_witness :
    (∃ es : List Product,
        format_products demoProducts 1 = .page es ("Page " ++ toString (1 + 1) ++
          " of " ++ toString ((demoProducts.length + 4) / 5)) ∧
        es.length = min 5 (demoProducts.length - 5 * 1)) ∧
    format_products demoProducts 2 = .noMore "No more products to show." ∧
    (∃ es : List Order,
        format_orders demoOrders 0 = .page es ("Page " ++ toString (0 + 1) ++
          " of " ++ toString ((demoOrders.length + 4) / 5)) ∧
        es.length = min 5 (demoOrders.length - 5 * 0)) ∧
    format_orders demoOrders 1 = .noMore "No more orders to show." :=
  pagination_page_count_and_footer demoProducts demoOrders 1 0 2 1
    (by decide) (by decide) (by decide) (by decide) (by decide) (by decide)

/-- Embedding of the persisted settings dictionary `context.bot_data`
(loaded from `settings.json`; see `save_settings`, bot.py lines 622-633).
The defaults are the ones passed to every `bot_data.get(key, default)`
call in `bot.py`. -/
structure BotData where
  is_running : Bool := false
  notify_low_stock : Bool := true
  notify_new_orders : Bool := true
  low_stock_threshold : Int := 5
  watched_product_id : Option String := none
  language : String := "en"
  currency : String := "USD"
  deriving DecidableEq, Repr

/-- Embedding of the list comprehension in `check_low_stock` (bot.py
lines 311-314): products whose `stock_quantity` is present and non-null
and at most the threshold. -/
def low_stock_filter (products : List Product) (t : Int) : List Product :=
  products.filter fun p =>
    match p.stock_quantity with
    | .val n => decide (n ≤ t)
    | _ => false

/-- Embedding of `watched_product.get('stock_quantity', float('inf')) <=
low_stock_threshold` (bot.py line 319).  The `float('inf')` default is
used only when the key is missing (and `inf <= t` is false for an
integer threshold); a present-but-`None` value is compared directly,
which in Python 3 raises `TypeError`. -/
def watchedStockCheck (p : Product) (t : Int) : Except String Bool :=
  match p.stock_quantity with
  | .missing => .ok false
  | .null => .error "TypeError"
  | .val n => .ok (decide (n ≤ t))

/-- Embedding of the watched-product step of `check_low_stock` (bot.py
lines 316-320): if a watched id is set (truthy), look up the first
product whose `str(id)` equals `str(watched_product_id)`, and when its
stock passes the threshold test, append it unless the low-stock list
already contains an equal record (Python `in`, value equality). -/
def watchedAddition (products : List Product) (wid? : Option String) (t : Int)
    (base : List Product) : Except String (List Product) :=
  match wid? with
  | none => .ok base
  | some wid =>
    if wid = "" then .ok base
    else
      match products.find? (fun p => toString p.id == wid) with
      | none => .ok base
      | some wp =>
        match watchedStockCheck wp t with
        | .error e => .error e
        | .ok b => .ok (if b && !(base.contains wp) then base ++ [wp] else base)

/-- Structural version of the retry loop in `check_low_stock` (bot.py
lines 298-303): `products = fetch_products(); attempts = 0; while
products is None and attempts < 3: products = fetch_products(); attempts
+= 1`.  `remaining` carries `3 - attempts`, so the `remaining = 0` case
is exactly the loop guard `attempts < 3` failing.  Returns the final
`products` value and the final `attempts` counter. -/
def retryLoop (fetch : Nat → Option (List Product)) :
    Option (List Product) → Nat → Nat → Option (List Product) × Nat
  | products, attempts, 0 => (products, attempts)
  | products, attempts, remaining + 1 =>
    match products with
    | some ps => (some ps, attempts)
    | none => retryLoop fetch (fetch (attempts + 1)) (attempts + 1) remaining

/-- Fetch with retry as performed by `check_low_stock`: the initial
`fetch_products()` call (index 0) followed by the retry loop.  Returns
the final result and the total number of `fetch_products` calls made
(one initial call plus one per loop iteration). -/
def fetchProductsWithRetry (fetch : Nat → Option (List Product)) :
    Option (List Product) × Nat :=
  let r := retryLoop fetch (fetch 0) 0 3
  (r.1, r.2 + 1)

/-- Terminal outcome of one monitor cycle (`check_low_stock`): skipped
because disabled or paused, skipped because no notification chat id is
configured, the single "repeated API failure" alert with no low-stock
computation, or a completed computation whose alert enumerates
`lowStock` (an alert message is sent exactly when the list is
non-empty). -/
inductive CycleOutcome
  | noop
  | noChatId
  | apiFailure
  | completed (lowStock : List Product)
  deriving DecidableEq, Repr

/-- Embedding of `check_low_stock` (bot.py lines 285-333).  `fetch n` is
the result of the (n+1)-st `fetch_products()` call of this cycle (`none`
models a transport failure).  A `TypeError` raised by the watched-product
comparison is surfaced as `Except.error`. -/
def check_low_stock (bd : BotData) (chat_id : Option String)
    (fetch : Nat → Option (List Product)) : Except String CycleOutcome :=
  if bd.is_running = false ∨ bd.notify_low_stock = false then .ok .noop
  else
    match chat_id with
    | none => .ok .noChatId
    | some _ =>
      match (fetchProductsWithRetry fetch).1 with
      | none => .ok .apiFailure
      | some products =>
        let base := low_stock_filter products bd.low_stock_threshold
        match watchedAddition products bd.watched_product_id
            bd.low_stock_threshold base with
        | .error e => .error e
        | .ok final => .ok (.completed final)

/-- Monitor settings with the bot running and all other fields at their
defaults (low-stock notifications on, threshold 5, nothing watched). -/
def c1Bot : BotData := { is_running := true }

/-- C1 (code bug): the retry loop of `check_low_stock` performs an
initial `fetch_products()` call plus up to three retries, i.e. up to
FOUR total attempts, not three.  With a fetch that fails exactly three
consecutive times and succeeds on the fourth call, a fourth attempt is
made and the cycle proceeds to the low-stock computation with no
"repeated API failure" alert; and even when every call fails, four
attempts are made although the alert text claims "after 3 attempts". -/
theorem check_low_stock_fourth_attempt :
    fetchProductsWithRetry (fun n => if n < 3 then none else some []) = (some [], 4) ∧
    check_low_stock c1Bot (some "chat") (fun n => if n < 3 then none else some []) =
      .ok (.completed []) ∧
    fetchProductsWithRetry (fun _ => none) = (none, 4) :=
  ⟨rfl, rfl, rfl⟩


/-- Monitor settings for the C4 example: running, threshold default 5. -/
def c4Bot : BotData := { is_running := true }

/-- Product list from the spec's example: id 1 with stock 3, id 2 with
stock 10. -/
def c4Products : List Product :=
  [{ id := 1, name := "A", price := "9", stock_quantity := .val 3 },
   { id := 2, name := "B", price := "9", stock_quantity := .val 10 }]

/-- The single low-stock product of the spec's example. -/
def c4LowProduct : Product :=
  { id := 1, name := "A", price := "9", stock_quantity := .val 3 }

/-- C4: with the monitor enabled, no watched product, and a successful
fetch returning `ps`, the cycle completes with exactly the list computed
by the comprehension `low_stock_filter`; membership in that list is
exactly "the record is in `ps`, its stock is present and non-null, and
at most the threshold"; and at the spec's example (threshold 5, products
`[{id:1,stock:3},{id:2,stock:10}]`) the alert lists only the id-1
record. -/
theorem low_stock_set_characterization
    (ps : List Product) (t : Int) (chat : String)
    (nno : Bool) (lang curr : String) :
    check_low_stock
        { is_running := true, notify_low_stock := true,
          notify_new_orders := nno, low_stock_threshold := t,
          watched_product_id := none, language := lang, currency := curr }
        (some chat) (fun _ => some ps) =
      .ok (.completed (low_stock_filter ps t)) ∧
    (∀ p : Product, p ∈ low_stock_filter ps t ↔
      p ∈ ps ∧ ∃ n : Int, p.stock_quantity = .val n ∧ n ≤ t) ∧
    check_low_stock c4Bot (some "chat") (fun _ => some c4Products) =
      .ok (.completed [c4LowProduct]) := by
  refine ⟨rfl, ?_, rfl⟩
  intro p
  rw [low_stock_filter, List.mem_filter]
  constructor
  · rintro ⟨hm, hf⟩
    refine ⟨hm, ?_⟩
    cases hsq : p.stock_quantity with
    | missing => rw [hsq] at hf; simp at hf
    | null => rw [hsq] at hf; simp at hf
    | val n => exact ⟨n, rfl, by rw [hsq] at hf; simpa using hf⟩
  · rintro ⟨hm, n, hsq, hle⟩
    exact ⟨hm, by rw [hsq]; simpa using hle⟩

/-- C5: when the monitor is enabled, a watched id is set and truthy, the
fetch succeeds with `ps`, the watched record (first product whose
stringified id matches the watched id) is already a member of the
naturally computed low-stock list, and it occurs exactly once there,
then the final alert list is the natural list itself, with the watched
record occurring exactly once: the watched-product step appends no
duplicate. -/
theorem watched_product_no_duplicate
    (ps : List Product) (t : Int) (chat wid : String)
    (nno : Bool) (lang curr : String) (wp : Product)
    (h4 : wid ≠ "")
    (h6 : ps.find? (fun p => toString p.id == wid) = some wp)
    (h7 : wp ∈ low_stock_filter ps t)
    (h8 : (low_stock_filter ps t).count wp = 1) :
    check_low_stock
        { is_running := true, notify_low_stock := true,
          notify_new_orders := nno, low_stock_threshold := t,
          watched_product_id := some wid, language := lang, currency := curr }
        (some chat) (fun _ => some ps) =
      .ok (.completed (low_stock_filter ps t)) ∧
    (low_stock_filter ps t).count wp = 1 := by
  have hpred := (List.mem_filter.mp h7).2
  have hcheck : watchedStockCheck wp t = .ok true := by
    cases hsq : wp.stock_quantity with
    | missing => rw [hsq] at hpred; simp at hpred
    | null => rw [hsq] at hpred; simp at hpred
    | val n =>
      rw [watchedStockCheck, hsq]
      rw [hsq] at hpred
      simpa using hpred
  have hcontains : (low_stock_filter ps t).contains wp = true := by
    simpa using h7
  have hadd : watchedAddition ps (some wid) t (low_stock_filter ps t) =
      .ok (low_stock_filter ps t) := by
    simp [watchedAddition, h4, h6, hcheck, hcontains, h7]
  have hstep : check_low_stock
      { is_running := true, notify_low_stock := true,
        notify_new_orders := nno, low_stock_threshold := t,
        watched_product_id := some wid, language := lang, currency := curr }
      (some chat) (fun _ => some ps) =
      match watchedAddition ps (some wid) t (low_stock_filter ps t) with
      | .error e => .error e
      | .ok final => .ok (.completed final) := rfl
  rw [hstep, hadd]
  exact ⟨rfl, h8⟩

/-- Monitor settings for the C5 witness: running, watching product 1. -/
def c5Bot : BotData := { is_running := true, watched_product_id := some "1" }

/-- Product list for the C5 witness: the watched product id 1 has stock
3, below the default threshold 5, so it is already in the natural
low-stock set. -/
def c5Products : List Product :=
  [{ id := 1, name := "A", price := "9", stock_quantity := .val 3 },
   { id := 2, name := "B", price := "9", stock_quantity := .val 10 }]

/-- Witness for C5 at a concrete input: watched id "1", its record in
the natural low-stock set once, and the final alert list counts it
exactly once. -/
theorem watched_product_no_duplicate_witness :
    check_low_stock c5Bot (some "chat") (fun _ => some c5Products) =
      .ok (.completed (low_stock_filter c5Products 5)) ∧
    (low_stock_filter c5Products 5).count c4LowProduct = 1 :=
  watched_product_no_duplicate c5Products 5 "chat" "1" true "en" "USD"
    c4LowProduct (by decide) rfl (by decide) (by decide)

/-- Monitor settings for C10: running and watching product 1. -/
def c10Bot : BotData := { is_running := true, watched_product_id := some "1" }

/-- Product list for C10: the watched product's `stock_quantity` key is
present with `null` (Python `None`). -/
def c10Products : List Product :=
  [{ id := 1, name := "N", price := "9", stock_quantity := .null }]

/-- C10 (code bug): when the watched product's record carries a `None`
stock value, `watched_product.get('stock_quantity', float('inf'))`
returns `None` (the default applies only to a missing key), and the
comparison `None <= low_stock_threshold` raises `TypeError`, so the
cycle does not complete. -/
theorem watched_null_stock_type_error :
    check_low_stock c10Bot (some "chat") (fun _ => some c10Products) =
      .error "TypeError" :=
  rfl

/-- Result of `update_product`: whether a remote `put` was issued, the
endpoint it targeted (when issued), the success flag, and the message
returned to the caller. -/
structure UpdateResult where
  remoteCalled : Bool
  endpoint : Option String
  ok : Bool
  message : String
  deriving DecidableEq, Repr

/-- Embedding of `update_product` (bot.py lines 153-180).  `price` is
kept as its string form (`str(price)` is what the code sends), `stock`
as an integer; `put` is the oracle for the remote `wcapi.put` call, with
`Except.error` modelling a `RequestException`.  Mirrors: the `data`
payload built from the optional price and stock, the `if not data`
local-failure return before any endpoint is built or called, the
endpoint string with the optional variation suffix, and the
success/failure messages. -/
def update_product (product_id : String) (price : Option String)
    (stock : Option Int) (variation_id : Option String)
    (put : Except String Unit) : UpdateResult :=
  let data : List (String × String) :=
    (match price with
     | some p => [("regular_price", p)]
     | none => []) ++
    (match stock with
     | some s => [("stock_quantity", toString s), ("manage_stock", "True")]
     | none => [])
  if data.isEmpty then
    { remoteCalled := false, endpoint := none, ok := false,
      message := "No updates provided." }
  else
    let endpoint := "products/" ++ product_id ++
      (match variation_id with
       | some v => "/variations/" ++ v
       | none => "")
    match put with
    | .ok _ =>
      { remoteCalled := true, endpoint := some endpoint, ok := true,
        message := "Update successful!" }
    | .error e =>
      { remoteCalled := true, endpoint := some endpoint, ok := false,
        message := "Update failed: " ++ e }

/-- The local validation failure result of `update_product`: no remote
call, no endpoint, failure flag, "No updates provided." message. -/
def noUpdatesResult : UpdateResult :=
  { remoteCalled := false, endpoint := none, ok := false,
    message := "No updates provided." }

/-- C6: for every call of `update_product` with neither a price nor a
stock value supplied, no remote call is issued (whatever the transport
oracle would answer) and the result is the local validation failure with
the "No updates provided." message. -/
theorem update_product_empty_payload_local_failure
    (product_id : String) (variation_id : Option String)
    (put : Except String Unit) :
    update_product product_id none none variation_id put = noUpdatesResult :=
  rfl

/-- Embedding of Python `str.isalnum` restricted to ASCII text: the
string is non-empty and every character is a letter or a digit. -/
def pyIsAlnum (s : String) : Bool :=
  !s.data.isEmpty && s.data.all fun c => c.isAlpha || c.isDigit

/-- Embedding of Python `str.isalpha` restricted to ASCII text: the
string is non-empty and every character is a letter. -/
def pyIsAlpha (s : String) : Bool :=
  !s.data.isEmpty && s.data.all Char.isAlpha

/-- The two request shapes `search_products` can issue: a SKU lookup
(`params["sku"] = query`) or a free-text search
(`params["search"] = query`). -/
inductive SearchMode
  | sku
  | freeText
  deriving DecidableEq, Repr

/-- Embedding of the query classification in `search_products` (bot.py
lines 119-122): `if query.isalnum() and not query.isalpha()` selects the
SKU lookup, everything else the free-text search. -/
def search_query_mode (query : String) : SearchMode :=
  if pyIsAlnum query && !pyIsAlpha query then .sku else .freeText

/-- Modelled from the spec's words "numeric-looking alphanumeric tokens
are treated as SKU lookups": a non-empty token consisting of letters and
digits that contains at least one digit. -/
def numericLookingToken (s : String) : Prop :=
  s.data ≠ [] ∧ (∀ c ∈ s.data, c.isAlpha ∨ c.isDigit) ∧ ∃ c ∈ s.data, c.isDigit

/-- An ASCII digit is not an ASCII letter. -/
theorem char_digit_not_alpha (c : Char) (h : c.isDigit = true) :
    c.isAlpha = false := by
  simp [Char.isDigit, Char.isAlpha, Char.isUpper, Char.isLower, UInt32.le_def,
    BitVec.le_def] at h ⊢
  omega

/-- The Boolean guard of `search_products` holds exactly on
numeric-looking alphanumeric tokens. -/
theorem alnum_not_alpha_iff (q : String) :
    (pyIsAlnum q && !pyIsAlpha q) = true ↔ numericLookingToken q := by
  rw [numericLookingToken]
  constructor
  · intro h
    rw [Bool.and_eq_true] at h
    obtain ⟨ha, hb⟩ := h
    rw [pyIsAlnum, Bool.and_eq_true] at ha
    obtain ⟨hne, hall⟩ := ha
    have hne' : q.data ≠ [] := by simpa using hne
    have hall' : ∀ c ∈ q.data, c.isAlpha ∨ c.isDigit := by
      intro c hc
      simpa using List.all_eq_true.mp hall c hc
    refine ⟨hne', hall', ?_⟩
    have hb' : pyIsAlpha q = false := by simpa using hb
    rw [pyIsAlpha, Bool.and_eq_false_iff] at hb'
    rcases hb' with h1 | h2
    · exact absurd (by simpa using h1) hne'
    · obtain ⟨c, hc, hca⟩ := List.all_eq_false.mp h2
      rcases hall' c hc with hal | hd
      · exact absurd hal hca
      · exact ⟨c, hc, hd⟩
  · rintro ⟨hne, hall, c, hc, hd⟩
    rw [Bool.and_eq_true, pyIsAlnum, Bool.and_eq_true]
    refine ⟨⟨by simpa using hne, ?_⟩, ?_⟩
    · rw [List.all_eq_true]
      intro x hx
      simpa using hall x hx
    · have : pyIsAlpha q = false := by
        rw [pyIsAlpha, Bool.and_eq_false_iff]
        right
        rw [List.all_eq_false]
        exact ⟨c, hc, by rw [char_digit_not_alpha c hd]; exact Bool.false_ne_true⟩
      simp [this]

/-- C9: `search_products` issues a SKU lookup exactly when the query is
a numeric-looking alphanumeric token (non-empty, all letters or digits,
at least one digit), and a free-text name search for every other
query. -/
theorem search_sku_classification (q : String) :
    (search_query_mode q = .sku ↔ numericLookingToken q) ∧
    (search_query_mode q = .freeText ↔ ¬ numericLookingToken q) := by
  have h : search_query_mode q = .sku ↔ numericLookingToken q := by
    rw [search_query_mode]
    constructor
    · intro hs
      by_contra hn
      rw [if_neg (fun hb => hn ((alnum_not_alpha_iff q).mp hb))] at hs
      exact SearchMode.noConfusion hs
    · intro hn
      rw [if_pos ((alnum_not_alpha_iff q).mpr hn)]
  refine ⟨h, ?_, ?_⟩
  · intro hft hn
    have := h.mpr hn
    rw [hft] at this
    exact SearchMode.noConfusion this
  · intro hn
    cases hmode : search_query_mode q with
    | sku => exact absurd (h.mp hmode) hn
    | freeText => rfl

/-- Embedding of the per-conversation `context.user_data` awaiting flags
(set in `button`, read and cleared in `handle_text`); a missing key
behaves as `False`, so a fresh conversation is all-false. -/
structure UserData where
  awaiting_threshold : Bool := false
  awaiting_watch_product : Bool := false
  awaiting_currency : Bool := false
  deriving DecidableEq, Repr

/-- The `CURRENCY_SYMBOLS` table (bot.py lines 21-26). -/
def CURRENCY_SYMBOLS : List (String × String) :=
  [("USD", "$"), ("EUR", "€"), ("IRR", "IRR"), ("IRT", "تومان")]

/-- Keys of `CURRENCY_SYMBOLS`; Python `currency in CURRENCY_SYMBOLS`
tests dictionary keys. -/
def currencyKeys : List String := CURRENCY_SYMBOLS.map Prod.fst

/-- Python `int(text)` on ASCII input: optional surrounding whitespace,
optional sign, then decimal digits (`None` on anything else).  Digit
grouping underscores and non-ASCII digits are not modelled. -/
def pyParseInt (s : String) : Option Int :=
  let t := s.trim
  if t.startsWith "-" then ((t.drop 1).toNat?).map (fun n => -(n : Int))
  else if t.startsWith "+" then ((t.drop 1).toNat?).map (fun n => (n : Int))
  else t.toNat?.map (fun n => (n : Int))

/-- Python `str.upper()` on ASCII text: upper-case every character. -/
def pyUpper (s : String) : String :=
  ⟨s.data.map Char.toUpper⟩

/-- Reply messages, tagged by the `LANGUAGES` key (or fixed string) that
`bot.py` sends, carrying the formatted parameters. -/
inductive Msg
  | notAuthorized (lang : String)
  | toggleLowStockSet (status : Bool)
  | toggleNewOrdersSet (status : Bool)
  | thresholdPrompt
  | watchPrompt
  | currencyPrompt
  | langSet (lang : String)
  | thresholdSet (t : Int)
  | thresholdError
  | watchSet (pid : Int) (t : Int)
  | watchError
  | currencySet (c : String)
  | currencyError
  | productsView (r : FormatResult Product)
  | ordersView (r : FormatResult Order)
  | customersView (page : Nat)
  | variationsView (pid : String)
  | updateResult (vid : String) (r : UpdateResult)
  | orderStatusMsg (ok : Bool) (m : String)
  | orderView (oid : String)
  | fetchFailed (what : String)
  deriving DecidableEq, Repr

/-- Remote store calls a handler can issue. -/
inductive StoreCall
  | fetchProducts
  | fetchOrders (limit : Nat)
  | fetchCustomers
  | fetchVariations (pid : String)
  | fetchOrder (oid : String)
  | putProduct (endpoint : String)
  | putOrder (oid : String)
  deriving DecidableEq, Repr

/-- Observable result of one handler invocation: the new settings and
awaiting flags, the replies sent, the store calls issued, and how many
times `save_settings` ran. -/
structure Effects where
  bot : BotData
  user : UserData
  msgs : List Msg := []
  calls : List StoreCall := []
  saves : Nat := 0
  deriving DecidableEq, Repr

/-- Oracle for the remote store: results of fetch calls and the outcome
of a `put` during this handler invocation. -/
structure Oracle where
  products : Option (List Product) := none
  orders : Option (List Order) := none
  customers : Option (List Customer) := none
  orderDetail : Option Order := none
  put : Except String Unit := .ok ()

/-- Callback tokens handled by `button` (bot.py lines 979-1074), with
their parsed arguments. -/
inductive Callback
  | toggle_low_stock
  | toggle_new_orders
  | set_threshold
  | watch_product
  | set_currency
  | toggle_lang
  | products_page (page : Nat)
  | vars (pid : String)
  | orders_page (page : Nat)
  | customers_page (page : Nat)
  | update_var (pid vid : String) (price : Option String) (stock : Option Int)
  | status (oid st : String)
  | order_detail (oid : String)
  deriving DecidableEq, Repr

/-- An inbound conversational update: a button callback or a free-text
message. -/
inductive Event
  | callback (cb : Callback)
  | message (text : String)
  deriving DecidableEq, Repr

/-- Embedding of `check_admin` (bot.py lines 636-644): the sender is
authorized iff the configured allow-list is non-empty and contains the
sender id (`if not admin_ids or user_id not in admin_ids` is the denial
condition). -/
def check_admin (admin_ids : List Int) (user_id : Int) : Bool :=
  !admin_ids.isEmpty && admin_ids.contains user_id

/-- Embedding of `update_order_status` (bot.py lines 217-231): the put
always carries a payload, so a remote call is always issued; the result
is the success flag and message. -/
def update_order_status (status : String) (put : Except String Unit) :
    Bool × String :=
  match put with
  | .ok _ => (true, "Order status updated to " ++ status ++ "!")
  | .error e => (false, "Update failed: " ++ e)

/-- Embedding of the authorized part of `button` (bot.py lines 987-1074),
one branch per callback token.  State changes, saves and store calls
mirror the source; message bodies are carried as tags. -/
def buttonBody (bd : BotData) (ud : UserData) (cb : Callback) (o : Oracle) :
    Effects :=
  match cb with
  | .toggle_low_stock =>
    let nb := !bd.notify_low_stock
    { bot := { bd with notify_low_stock := nb }, user := ud,
      msgs := [.toggleLowStockSet nb], saves := 1 }
  | .toggle_new_orders =>
    let nb := !bd.notify_new_orders
    { bot := { bd with notify_new_orders := nb }, user := ud,
      msgs := [.toggleNewOrdersSet nb], saves := 1 }
  | .set_threshold =>
    { bot := bd, user := { ud with awaiting_threshold := true },
      msgs := [.thresholdPrompt] }
  | .watch_product =>
    { bot := bd, user := { ud with awaiting_watch_product := true },
      msgs := [.watchPrompt] }
  | .set_currency =>
    { bot := bd, user := { ud with awaiting_currency := true },
      msgs := [.currencyPrompt] }
  | .toggle_lang =>
    let nl := if bd.language = "en" then "fa" else "en"
    { bot := { bd with language := nl }, user := ud,
      msgs := [.langSet nl], saves := 1 }
  | .products_page page =>
    match o.products with
    | none =>
      { bot := bd, user := ud, msgs := [.fetchFailed "products"],
        calls := [.fetchProducts] }
    | some ps =>
      { bot := bd, user := ud,
        msgs := [.productsView (format_products ps page)],
        calls := [.fetchProducts] }
  | .vars pid =>
    { bot := bd, user := ud, msgs := [.variationsView pid],
      calls := [.fetchVariations pid] }
  | .orders_page page =>
    match o.orders with
    | none =>
      { bot := bd, user := ud, msgs := [.fetchFailed "orders"],
        calls := [.fetchOrders 10] }
    | some os =>
      { bot := bd, user := ud,
        msgs := [.ordersView (format_orders os page)],
        calls := [.fetchOrders 10] }
  | .customers_page page =>
    match o.customers with
    | none =>
      { bot := bd, user := ud, msgs := [.fetchFailed "customers"],
        calls := [.fetchCustomers] }
    | some _ =>
      { bot := bd, user := ud, msgs := [.customersView page],
        calls := [.fetchCustomers] }
  | .update_var pid vid price stock =>
    let r := update_product pid price stock (some vid) o.put
    { bot := bd, user := ud, msgs := [.updateResult vid r],
      calls :=
        match r.endpoint with
        | some ep => [.putProduct ep]
        | none => [] }
  | .status oid st =>
    let r := update_order_status st o.put
    if r.1 then
      match o.orderDetail with
      | some _ =>
        { bot := bd, user := ud, msgs := [.orderView oid],
          calls := [.putOrder oid, .fetchOrder oid] }
      | none =>
        { bot := bd, user := ud, msgs := [.fetchFailed "order refresh"],
          calls := [.putOrder oid, .fetchOrder oid] }
    else
      { bot := bd, user := ud, msgs := [.orderStatusMsg false r.2],
        calls := [.putOrder oid] }
  | .order_detail oid =>
    match o.orderDetail with
    | none =>
      { bot := bd, user := ud, msgs := [.fetchFailed "order"],
        calls := [.fetchOrder oid] }
    | some _ =>
      { bot := bd, user := ud, msgs := [.orderView oid],
        calls := [.fetchOrder oid] }

/-- Embedding of the authorized part of `handle_text` (bot.py lines
1081-1115): the `elif` chain over the three awaiting flags, with the
threshold parse-and-range check, the watch-product parse plus product
existence check against a fresh fetch, and the currency membership
check.  A flag is cleared only inside its own branch, after a fully
successful parse. -/
def textBody (bd : BotData) (ud : UserData) (text : String) (o : Oracle) :
    Effects :=
  if ud.awaiting_threshold then
    match pyParseInt text with
    | some t =>
      if t < 0 then { bot := bd, user := ud, msgs := [.thresholdError] }
      else
        { bot := { bd with low_stock_threshold := t },
          user := { ud with awaiting_threshold := false },
          msgs := [.thresholdSet t], saves := 1 }
    | none => { bot := bd, user := ud, msgs := [.thresholdError] }
  else if ud.awaiting_watch_product then
    match pyParseInt text with
    | none => { bot := bd, user := ud, msgs := [.watchError] }
    | some pid =>
      match o.products with
      | some ps =>
        if ps.any (fun p => (p.id : Int) == pid) then
          { bot := { bd with watched_product_id := some (toString pid) },
            user := { ud with awaiting_watch_product := false },
            msgs := [.watchSet pid bd.low_stock_threshold],
            calls := [.fetchProducts], saves := 1 }
        else
          { bot := bd, user := ud, msgs := [.watchError],
            calls := [.fetchProducts] }
      | none =>
        { bot := bd, user := ud, msgs := [.watchError],
          calls := [.fetchProducts] }
  else if ud.awaiting_currency then
    let c := pyUpper text
    if currencyKeys.contains c then
      { bot := { bd with currency := c },
        user := { ud with awaiting_currency := false },
        msgs := [.currencySet c], saves := 1 }
    else { bot := bd, user := ud, msgs := [.currencyError] }
  else { bot := bd, user := ud }

/-- The conversational dispatcher: every handler in `bot.py` starts with
`if not await check_admin(update, context): return`, so an unauthorized
sender receives only the localized denial message and nothing else runs;
an authorized callback goes to `button`, an authorized free-text message
to `handle_text`. -/
def dispatch (admin_ids : List Int) (sender_id : Int) (bd : BotData)
    (ud : UserData) (ev : Event) (o : Oracle) : Effects :=
  if check_admin admin_ids sender_id then
    match ev with
    | .callback cb => buttonBody bd ud cb o
    | .message text => textBody bd ud text o
  else { bot := bd, user := ud, msgs := [.notAuthorized bd.language] }

/-- Reachable joint states of the settings record and one conversation's
awaiting flags: any initial settings with fresh (all-false) flags,
closed under dispatching any event from any sender with any oracle
answers. -/
inductive Reachable : BotData × UserData → Prop
  | init (bd : BotData) : Reachable (bd, {})
  | step (admin_ids : List Int) (sender_id : Int) (ev : Event) (o : Oracle)
      (s : BotData × UserData) (h : Reachable s) :
      Reachable ((dispatch admin_ids sender_id s.1 s.2 ev o).bot,
        (dispatch admin_ids sender_id s.1 s.2 ev o).user)

/-- Number of awaiting flags currently set. -/
def awaitingFlagCount (ud : UserData) : Nat :=
  (if ud.awaiting_threshold then 1 else 0) +
  (if ud.awaiting_watch_product then 1 else 0) +
  (if ud.awaiting_currency then 1 else 0)

/-- The two-flag state produced by prompting for a threshold and then
for a currency without answering in between. -/
def twoFlagsUser : UserData :=
  { awaiting_threshold := true, awaiting_currency := true }

/-- Counterexample to C3 as stated: the mutual-exclusion invariant fails
on the code.  Pressing "Set Threshold" and then "Set Currency" (each
prompt sets its own flag without clearing the others) reaches a state
with two awaiting flags set at once. -/
theorem awaiting_flags_not_exclusive_cex :
    ¬ (∀ s : BotData × UserData, Reachable s → awaitingFlagCount s.2 ≤ 1) ∧
    Reachable ({}, twoFlagsUser) ∧ awaitingFlagCount twoFlagsUser = 2 := by
  have h0 : Reachable (({} : BotData), ({} : UserData)) := .init {}
  have h1 := Reachable.step [1] 1 (.callback .set_threshold) {} _ h0
  have h2 := Reachable.step [1] 1 (.callback .set_currency) {} _ h1
  have hr : Reachable (({} : BotData), twoFlagsUser) := h2
  refine ⟨?_, hr, by decide⟩
  intro hall
  have := hall _ hr
  rw [show awaitingFlagCount twoFlagsUser = 2 from by decide] at this
  omega

/-- C3 as amended: the three awaiting flags are not mutually exclusive.
Each prompt callback sets its own flag and leaves the other two
unchanged (so states with several flags set are reachable), and a
free-text reply either leaves the flags unchanged or clears exactly the
highest-priority currently-set flag (threshold before watch-product
before currency), namely the flag of the branch that parsed
successfully. -/
theorem awaiting_flags_prompt_and_clear (bd : BotData) (ud : UserData)
    (o : Oracle) (t : String) :
    (buttonBody bd ud .set_threshold o).user = { ud with awaiting_threshold := true } ∧
    (buttonBody bd ud .watch_product o).user = { ud with awaiting_watch_product := true } ∧
    (buttonBody bd ud .set_currency o).user = { ud with awaiting_currency := true } ∧
    ((textBody bd ud t o).user = ud ∨
     (ud.awaiting_threshold = true ∧
       (textBody bd ud t o).user = { ud with awaiting_threshold := false }) ∨
     (ud.awaiting_threshold = false ∧ ud.awaiting_watch_product = true ∧
       (textBody bd ud t o).user = { ud with awaiting_watch_product := false }) ∨
     (ud.awaiting_threshold = false ∧ ud.awaiting_watch_product = false ∧
       ud.awaiting_currency = true ∧
       (textBody bd ud t o).user = { ud with awaiting_currency := false })) := by
  refine ⟨rfl, rfl, rfl, ?_⟩
  by_cases h1 : ud.awaiting_threshold = true
  · rcases hp : pyParseInt t with _ | v
    · left
      simp [textBody, h1, hp]
    · by_cases hv : v < 0
      · left
        simp [textBody, h1, hp, hv]
      · right; left
        exact ⟨h1, by simp [textBody, h1, hp, hv]⟩
  · have h1f : ud.awaiting_threshold = false := by simpa using h1
    by_cases h2 : ud.awaiting_watch_product = true
    · rcases hp : pyParseInt t with _ | v
      · left
        simp [textBody, h1f, h2, hp]
      · rcases hps : o.products with _ | ps
        · left
          simp [textBody, h1f, h2, hp, hps]
        · by_cases hany : ps.any (fun p => (p.id : Int) == v) = true
          · right; right; left
            exact ⟨h1f, h2, by simp [textBody, h1f, h2, hp, hps, hany]⟩
          · left
            simp [textBody, h1f, h2, hp, hps, hany]
    · have h2f : ud.awaiting_watch_product = false := by simpa using h2
      by_cases h3 : ud.awaiting_currency = true
      · by_cases hc : pyUpper t ∈ currencyKeys
        · right; right; right
          exact ⟨h1f, h2f, h3, by simp [textBody, h1f, h2f, h3, hc]⟩
        · left
          simp [textBody, h1f, h2f, h3, hc]
      · have h3f : ud.awaiting_currency = false := by simpa using h3
        left
        simp [textBody, h1f, h2f, h3f]

/-- C7: for every sender not authorized by `check_admin` (the allow-list
is empty or does not contain the sender id) and every callback or
free-text event, the dispatcher sends only the localized "not
authorized" denial, leaves the settings and the awaiting flags
unchanged, issues no store call, and performs no settings save. -/
theorem unauthorized_sender_no_effect (admin_ids : List Int)
    (sender_id : Int) (bd : BotData) (ud : UserData) (ev : Event)
    (o : Oracle) (h : admin_ids = [] ∨ sender_id ∉ admin_ids) :
    dispatch admin_ids sender_id bd ud ev o =
      { bot := bd, user := ud, msgs := [.notAuthorized bd.language],
        calls := [], saves := 0 } := by
  have hc : check_admin admin_ids sender_id = false := by
    rcases h with h | h
    · simp [check_admin, h]
    · simp [check_admin, h]
  rw [dispatch.eq_def, if_neg (by simp [hc])]

/-- Witness for C7 at a concrete input: an empty allow-list, sender 42,
and a toggle callback change nothing and send only the denial. -/
theorem unauthorized_sender_no_effect_witness :
    dispatch [] 42 {} {} (.callback .toggle_low_stock) {} =
      { bot := {}, user := {}, msgs := [.notAuthorized "en"],
        calls := [], saves := 0 } :=
  unauthorized_sender_no_effect [] 42 {} {} (.callback .toggle_low_stock)
    {} (Or.inl rfl)

/-- C8: while the awaiting-currency mode is the active one and the reply
text does not uppercase to one of USD, EUR, IRR, IRT, the handler leaves
the settings (in particular `currency`) unchanged, keeps the
awaiting-currency flag set, sends the currency error message only, and
does not save. -/
theorem invalid_currency_keeps_state (bd : BotData) (ud : UserData)
    (o : Oracle) (t : String)
    (h1 : ud.awaiting_threshold = false)
    (h2 : ud.awaiting_watch_product = false)
    (h3 : ud.awaiting_currency = true)
    (h4 : pyUpper t ∉ currencyKeys) :
    (textBody bd ud t o).bot = bd ∧
    (textBody bd ud t o).user = ud ∧
    (textBody bd ud t o).user.awaiting_currency = true ∧
    (textBody bd ud t o).msgs = [.currencyError] ∧
    (textBody bd ud t o).calls = [] ∧
    (textBody bd ud t o).saves = 0 := by
  simp [textBody, h1, h2, h3, h4]

/-- Conversation state awaiting only a currency reply. -/
def c8User : UserData := { awaiting_currency := true }

/-- Witness for C8 at a concrete input: the reply "xyz" is not a valid
currency code, so nothing changes and the error message is sent. -/
theorem invalid_currency_keeps_state_witness :
    (textBody {} c8User "xyz" {}).bot = {} ∧
    (textBody {} c8User "xyz" {}).user = c8User ∧
    (textBody {} c8User "xyz" {}).user.awaiting_currency = true ∧
    (textBody {} c8User "xyz" {}).msgs = [.currencyError] ∧
    (textBody {} c8User "xyz" {}).calls = [] ∧
    (textBody {} c8User "xyz" {}).saves = 0 :=
  invalid_currency_keeps_state {} c8User {} "xyz" rfl rfl rfl (by decide)
